import Mathlib

/-!
Verification of the property-analyzer scoring and metrics engine.

Shallow embedding of the Python source:
* `src/scoring/property_scorer.py` — `PropertyScorer.get_price_band`,
  `PropertyScorer.score_property` (value / location / feature scoring,
  confidence, validation examples, narrative fallback);
* `src/app.py` — `MarketAnalyzer.display_value_analysis`,
  `MarketAnalyzer.display_income_metrics` (value spread, GRM, cap rate),
  the 180-day close-rate computations in `analyze_property`, and the
  comparable ranking by correlation;
* `src/_02_market_analysis_test.py` — the square-footage comparable filter
  in `MarketAnalyzer.get_comparables`.

Python `dict.get(key, default)` access is modelled with `Option` fields and
`Option.getD`; Python truthiness of a numeric field is "present and nonzero",
of a string field "present and non-empty".  Numbers are embedded as `ℚ`.
A Python `ZeroDivisionError` (or any uncaught exception) is modelled by the
computation returning `none` / a `crash` marker.  The `%.1f` rendering used
inside two factor strings is abstracted by `toString` of the rational; no
claim depends on the rendered digits.
-/

namespace PropertyAnalyzer

/-- Python truthiness of an optional numeric field: present and nonzero. -/
def truthyQ (o : Option ℚ) : Bool := o.getD 0 != 0

/-- Python truthiness of an optional string field: present and non-empty. -/
def truthyS (o : Option String) : Bool := o.getD "" != ""

/-- A raw comparable sale/rental record (fields accessed with `.get` in the
scorer, by direct indexing in the test-page filter). -/
structure ComparableRecord where
  formattedAddress : Option String := none
  price : Option ℚ := none
  squareFootage : Option ℚ := none
  bedrooms : Option ℚ := none
  bathrooms : Option ℚ := none
  correlation : Option ℚ := none
  daysOnMarket : Option ℚ := none
  removedDate : Option String := none
  lastSeenDate : Option String := none
deriving DecidableEq

/-- The value-estimate response (`/avm/value`): `price`, `priceRangeLow` and
`priceRangeHigh` are indexed directly by the scorer (required keys);
`comparables` is tested with `'comparables' in value_estimate`. -/
structure ValueEstimate where
  price : ℚ
  priceRangeLow : ℚ
  priceRangeHigh : ℚ
  comparables : Option (List ComparableRecord) := none
deriving DecidableEq

/-- The `saleData` section of a market response; every field is read with
`.get(field, 0)`. -/
structure SaleStats where
  averagePrice : Option ℚ := none
  averagePricePerSquareFoot : Option ℚ := none
  totalListings : Option ℚ := none
  averageSquareFootage : Option ℚ := none
  averageDaysOnMarket : Option ℚ := none
deriving DecidableEq

/-- A truthy (non-`None`, non-empty) market response; `saleData` may be
absent (`'saleData' in market_data` is tested separately from truthiness). -/
structure MarketData where
  saleData : Option SaleStats := none
deriving DecidableEq

/-- The `features` mapping of a property record. -/
structure PropertyFeatures where
  garageSpaces : Option ℚ := none
  coolingType : Option String := none
  heatingType : Option String := none
  floorCount : Option ℚ := none
  pool : Option Bool := none
deriving DecidableEq

/-- The empty features dict used as default by
`property_data.get('features', {})`. -/
def emptyFeatures : PropertyFeatures := {}

/-- The subject property record, as read by the scorer. -/
structure PropertyData where
  zipCode : Option String := none
  squareFootage : Option ℚ := none
  features : Option PropertyFeatures := none
deriving DecidableEq

/-- The `value_analysis` sub-dict of the score breakdown. -/
structure ValueAnalysis where
  estimated_value : ℚ
  value_range_low : ℚ
  value_range_high : ℚ
deriving DecidableEq

/-- The `market_context` sub-dict of the score breakdown. -/
structure MarketContext where
  avg_value : ℚ
  avg_price_sqft : ℚ
  total_properties : ℚ
  avg_sqft : ℚ
  avg_days_on_market : ℚ
deriving DecidableEq

/-- One projected comparable in `validation_examples`. -/
structure ValidationExample where
  formattedAddress : String
  squareFootage : ℚ
  bedrooms : ℚ
  bathrooms : ℚ
  price : ℚ
  correlation : ℚ
  daysOnMarket : ℚ
deriving DecidableEq

/-- `score_breakdown`: `market_context`/`value_analysis` are `none` while the
Python dicts are still `{}`; `ai_analysis` is `none` while the key is absent. -/
structure ScoreBreakdown where
  total_score : ℕ
  value_score : ℕ
  location_score : ℕ
  feature_score : ℕ
  confidence : String
  factors : List String
  price_band : String
  market_context : Option MarketContext
  validation_examples : List ValidationExample
  value_analysis : Option ValueAnalysis
  ai_analysis : Option String
deriving DecidableEq

/-- The initial `score_breakdown` dict built at the top of `score_property`
(also the value returned when the property record cannot be fetched). -/
def initialBreakdown : ScoreBreakdown where
  total_score := 0
  value_score := 0
  location_score := 0
  feature_score := 0
  confidence := "low"
  factors := []
  price_band := ""
  market_context := none
  validation_examples := []
  value_analysis := none
  ai_analysis := none

/-- `PropertyScorer.get_price_band`. -/
def get_price_band (value : ℚ) : String :=
  if value < 100000 then "Under 100K"
  else if value < 200000 then "100K-200K"
  else if value < 500000 then "200K-500K"
  else "Over 500K"

/-- The price-ratio banding of `score_property` (lines 56-67): score and
factor chosen by the same `if/elif` chain, taking the ratio as argument. -/
def valueBand (r : ℚ) : ℕ × String :=
  if 0.9 ≤ r ∧ r ≤ 1.1 then
    (40, "Purchase price aligns well with estimated value")
  else if 0.8 ≤ r ∧ r ≤ 1.2 then
    (35, "Purchase price reasonably aligned with estimated value")
  else if r < 0.9 then
    (30, "Potential value opportunity - below estimated value")
  else
    (20, "Purchase price significantly above estimated value")

/-- The value score awarded for a considered price against an estimated
value (`price_ratio = considered_price / estimated_value`). -/
def valueScore (consideredPrice estimatedValue : ℚ) : ℕ :=
  (valueBand (consideredPrice / estimatedValue)).1

/-- The "value insight" factor of `score_property` (lines 69-79): percentage
deviation framing, empty when the two prices are equal. -/
def valueInsight (consideredPrice estimatedValue : ℚ) : List String :=
  let valueDiff := |consideredPrice - estimatedValue|
  let valueDiffPercent := valueDiff / estimatedValue * 100
  let p := toString valueDiffPercent
  if estimatedValue < consideredPrice then
    [s!"Consider negotiating - asking price is {p}% above estimated value"]
  else if consideredPrice < estimatedValue then
    [s!"Potential equity - asking price is {p}% below estimated value"]
  else []

/-- The size-fit sub-band of the location score (lines 100-108). -/
def sizeFitBand (sizeQuot : ℚ) : ℕ × String :=
  if 0.8 ≤ sizeQuot ∧ sizeQuot ≤ 1.2 then
    (15, "Property size aligns with market average")
  else if 0.6 ≤ sizeQuot ∧ sizeQuot ≤ 1.4 then
    (10, "Property size reasonable for market")
  else
    (5, "Unusual size for market")

/-- The market-velocity sub-band of the location score (lines 110-119). -/
def velocityBand (daysOnMarket : ℚ) : ℕ × String :=
  if daysOnMarket ≤ 30 then (15, "High-demand market area")
  else if daysOnMarket ≤ 60 then (10, "Moderate market activity")
  else (5, "Slower market activity")

/-- The location score and its factors (lines 97-119): the size-fit sub-band
is skipped unless both square footages are truthy, the velocity sub-band is
always added. -/
def locationScore (pd : PropertyData) (ms : SaleStats) : ℕ × List String :=
  let sizePart :=
    if truthyQ pd.squareFootage && truthyQ ms.averageSquareFootage then
      let b := sizeFitBand (pd.squareFootage.getD 0 / ms.averageSquareFootage.getD 0)
      (b.1, [b.2])
    else (0, ([] : List String))
  let velPart := velocityBand (ms.averageDaysOnMarket.getD 0)
  (sizePart.1 + velPart.1, sizePart.2 ++ [velPart.2])

/-- The feature score and its factors (lines 121-141): five independent
fixed-weight contributions. -/
def featureScore (features : PropertyFeatures) : ℕ × List String :=
  let garage :=
    if features.garageSpaces.getD 0 > 1 then
      ((8 : ℕ), ["Multiple garage spaces add value"]) else (0, [])
  let cooling :=
    if features.coolingType = some "Central" then
      ((6 : ℕ), ["Central cooling system"]) else (0, [])
  let heating :=
    if features.heatingType = some "Central" then
      ((6 : ℕ), ["Central heating system"]) else (0, [])
  let floors :=
    if features.floorCount.getD 1 > 1 then
      ((5 : ℕ), ["Multiple floors"]) else (0, [])
  let pool :=
    if features.pool = some true then
      ((5 : ℕ), ["Pool adds value"]) else (0, [])
  (garage.1 + cooling.1 + heating.1 + floors.1 + pool.1,
   garage.2 ++ cooling.2 ++ heating.2 ++ floors.2 ++ pool.2)

/-- The confidence assignment of `score_property` (lines 162-166), keyed on
the truthiness of the two fetched responses. -/
def confidenceLevel (valueEstimate : Option ValueEstimate)
    (marketData : Option MarketData) : String :=
  if valueEstimate.isSome && marketData.isSome then "high"
  else if valueEstimate.isSome || marketData.isSome then "medium"
  else "low"

/-- The `validation_examples` projection of one comparable (lines 145-153). -/
def toValidationExample (c : ComparableRecord) : ValidationExample where
  formattedAddress := c.formattedAddress.getD ""
  squareFootage := c.squareFootage.getD 0
  bedrooms := c.bedrooms.getD 0
  bathrooms := c.bathrooms.getD 0
  price := c.price.getD 0
  correlation := c.correlation.getD 0
  daysOnMarket := c.daysOnMarket.getD 0

/-- The `market_context` projection of the sale stats (lines 89-95). -/
def toMarketContext (ms : SaleStats) : MarketContext where
  avg_value := ms.averagePrice.getD 0
  avg_price_sqft := ms.averagePricePerSquareFoot.getD 0
  total_properties := ms.totalListings.getD 0
  avg_sqft := ms.averageSquareFootage.getD 0
  avg_days_on_market := ms.averageDaysOnMarket.getD 0

/-- The fixed placeholder substituted when narrative generation raises
(line 176 of `property_scorer.py`). -/
def placeholderAnalysis : String := "Unable to generate analysis at this time."

/-- The `score_breakdown` dict of `score_property` as it stands right before
the narrative generation (lines 43-169): all numeric scores, confidence,
factors, price band, market context, validation examples and value analysis
filled in; the `ai_analysis` key still absent. -/
def scoreBase (pd : PropertyData) (valueEstimate : Option ValueEstimate)
    (marketData : Option MarketData) (consideredPrice : ℚ) : ScoreBreakdown :=
  let valueAnalysis : Option ValueAnalysis := valueEstimate.map fun ve =>
    ⟨ve.price, ve.priceRangeLow, ve.priceRangeHigh⟩
  let valuePart : ℕ × List String := valueEstimate.elim (0, []) fun ve =>
    let band := valueBand (consideredPrice / ve.price)
    (band.1, band.2 :: valueInsight consideredPrice ve.price)
  let saleStats : Option SaleStats := marketData.bind MarketData.saleData
  let marketContext := saleStats.map toMarketContext
  let locationPart : ℕ × List String :=
    saleStats.elim (0, []) fun ms => locationScore pd ms
  let featurePart := featureScore (pd.features.getD emptyFeatures)
  let validationExamples := valueEstimate.elim [] fun ve =>
    ve.comparables.elim [] fun comps => (comps.take 5).map toValidationExample
  { total_score := valuePart.1 + locationPart.1 + featurePart.1
    value_score := valuePart.1
    location_score := locationPart.1
    feature_score := featurePart.1
    confidence := confidenceLevel valueEstimate marketData
    factors := valuePart.2 ++ locationPart.2 ++ featurePart.2
    price_band := get_price_band consideredPrice
    market_context := marketContext
    validation_examples := validationExamples
    value_analysis := valueAnalysis
    ai_analysis := none }

/-- `PropertyScorer.score_property`, parametrised by the results of the
external fetches (`propertyData`, `valueEstimate`, `marketData`) and by the
narrative generator `gen` (`none` models the generator raising, which the
scorer catches).  The result is `none` exactly when the pipeline raises an
uncaught exception, which happens only for the unguarded
`considered_price / estimated_value` division when the estimated price is
zero. -/
def scoreProperty (propertyData : Option PropertyData)
    (valueEstimate : Option ValueEstimate) (marketData : Option MarketData)
    (gen : ScoreBreakdown → Option String) (consideredPrice : ℚ) :
    Option ScoreBreakdown :=
  match propertyData with
  | none => some initialBreakdown
  | some pd =>
    if valueEstimate.any (fun ve => ve.price == 0) then
      none
    else
      let base := scoreBase pd valueEstimate marketData consideredPrice
      some { base with ai_analysis := some ((gen base).getD placeholderAnalysis) }

/-- Outcome of one inline metric derivation in the dashboard: the metric was
computed, skipped by a guard, or the computation raised `ZeroDivisionError`. -/
inductive MetricResult where
  | crash : MetricResult
  | skipped : MetricResult
  | value : ℚ → MetricResult
deriving DecidableEq

/-- A value-estimate response as read by the dashboard display code, every
field via `.get` (`src/app.py`). -/
structure ValueData where
  price : Option ℚ := none
  priceRangeLow : Option ℚ := none
  priceRangeHigh : Option ℚ := none
deriving DecidableEq

/-- A rent-estimate response as read by the dashboard display code. -/
structure RentalData where
  rent : Option ℚ := none
deriving DecidableEq

/-- The value-spread computation of `display_value_analysis` (app.py lines
61-62): `(high - low) / value_data.get('price', 1) * 100`.  The denominator
defaults to 1 only when the `price` key is absent; a present zero price is
divided by. -/
def valueSpreadMetric (valueData : ValueData) : MetricResult :=
  let denom := valueData.price.getD 1
  if denom = 0 then .crash
  else .value ((valueData.priceRangeHigh.getD 0 - valueData.priceRangeLow.getD 0)
    / denom * 100)

/-- The GRM computation of `display_income_metrics` (app.py lines 75-89):
`annual_rent = rental_data.get('rent', 0) * 12`; guarded only by
`value_data.get('price')`, then `value_data['price'] / annual_rent`. -/
def incomeGRMMetric (valueData : ValueData) (rentalData : RentalData) :
    MetricResult :=
  let monthlyRent := rentalData.rent.getD 0
  let annualRent := monthlyRent * 12
  if truthyQ valueData.price then
    if annualRent = 0 then .crash
    else .value (valueData.price.getD 0 / annualRent)
  else .skipped

/-- The cap-rate computation of `display_income_metrics` (app.py lines
102-104): `noi = annual_rent * 0.6`; guarded by `value_data.get('price')`,
then `(noi / value_data['price']) * 100`. -/
def incomeCapRateMetric (valueData : ValueData) (rentalData : RentalData) :
    MetricResult :=
  let monthlyRent := rentalData.rent.getD 0
  let annualRent := monthlyRent * 12
  let noi := annualRent * 0.6
  if truthyQ valueData.price then
    if valueData.price.getD 0 = 0 then .crash
    else .value (noi / valueData.price.getD 0 * 100)
  else .skipped

/-- The 180-day close rate displayed in the timeline panel (app.py lines
307-312): records with a truthy `removedDate` and `get('daysOnMarket', 0)`
below 180, divided by the full comparable count (`ZeroDivisionError`, i.e.
`none`, on an empty list). -/
def closeRate180Display (comps : List ComparableRecord) : Option ℚ :=
  let recentSales := comps.filter fun c =>
    truthyS c.removedDate && decide (c.daysOnMarket.getD 0 < 180)
  if comps.length = 0 then none
  else some ((recentSales.length : ℚ) / (comps.length : ℚ) * 100)

/-- The `close_rate` assembled into `exchange_data` (app.py line 331):
records with `get('daysOnMarket', 180)` below 180 — no `removedDate`
condition — divided by the full comparable count. -/
def closeRate180Exchange (comps : List ComparableRecord) : Option ℚ :=
  if comps.length = 0 then none
  else some (((comps.filter fun c =>
    decide (c.daysOnMarket.getD 180 < 180)).length : ℚ) / (comps.length : ℚ) * 100)

/-- Modelled from the spec: `closeWithinWindowRate(windowDays)` = fraction of
records with `removedDate` present AND `daysOnMarket` (present and) below
`windowDays`, over the full comparable-set size.  Stated only to compare the
two code sites against the claimed formula. -/
def closeWithinWindowRateSpec (comps : List ComparableRecord)
    (windowDays : ℚ) : Option ℚ :=
  if comps.length = 0 then none
  else some (((comps.filter fun c =>
    c.removedDate.isSome && c.daysOnMarket.any (fun d => decide (d < windowDays))).length : ℚ)
    / (comps.length : ℚ) * 100)

/-- The square-footage comparable filter of
`MarketAnalyzer.get_comparables` (`src/_02_market_analysis_test.py` lines
43-51).  Every record's `squareFootage` is indexed directly
(`comp['squareFootage']`), so a record missing it raises (`none`). -/
def filterBySize (comps : List ComparableRecord) (sqft : ℚ)
    (sqftRange : ℚ) : Option (List ComparableRecord) :=
  let minSqft := sqft * (1 - sqftRange / 100)
  let maxSqft := sqft * (1 + sqftRange / 100)
  if comps.all (fun c => c.squareFootage.isSome) then
    some (comps.filter fun c =>
      decide (minSqft ≤ c.squareFootage.getD 0) && decide (c.squareFootage.getD 0 ≤ maxSqft))
  else none

/-- The sort key `float(x.get('correlation', 0))` used when ranking
comparables. -/
def corrKey (c : ComparableRecord) : ℚ := c.correlation.getD 0

/-- The ordering used by `sorted(comps, key=..., reverse=True)`: `a` may
precede `b` when `b`'s key is not larger. -/
def corrDescLE (a b : ComparableRecord) : Bool := corrKey b ≤ corrKey a

/-- `sorted(comps, key=lambda x: float(x.get('correlation', 0)),
reverse=True)` (app.py line 217 and `_02_market_analysis_test.py` line 180):
Python's `sorted` is a stable sort, so it is extensionally the stable
`List.mergeSort` under the same ordering. -/
def rankBySimilarity (comps : List ComparableRecord) : List ComparableRecord :=
  comps.mergeSort corrDescLE

/-- The input guard of `RentcastAPI.get_property_data` (rentcast.py lines
66-70): a falsy (empty) address yields `None` before any request is issued;
otherwise the fetch result is returned. -/
def getPropertyData (address : String) (fetched : Option PropertyData) :
    Option PropertyData :=
  if address = "" then none else fetched

/-- A comparable that is still on the market (`removedDate` absent) after 30
days, used to separate the two close-rate computation sites. -/
def openComp30 : ComparableRecord := { daysOnMarket := some 30 }

/-- The breakdown produced by a scoring run whose narrative generator
raises. -/
def narrativeFailB : ScoreBreakdown :=
  (scoreProperty (some {}) none (some { saleData := none })
    (fun _ => none) 150000).getD initialBreakdown

/-- The breakdown produced by the same scoring run with a succeeding
narrative generator. -/
def narrativeOkB : ScoreBreakdown :=
  (scoreProperty (some {}) none (some { saleData := none })
    (fun _ => some "A fine property.") 150000).getD initialBreakdown

/-- Helper: for a found property and a nonzero estimated price, the value
score of the returned breakdown is the price-ratio band of
`consideredPrice / estimatedPrice`. -/
theorem scoreProperty_value_score (pd : PropertyData) (ve : ValueEstimate)
    (m : Option MarketData) (gen : ScoreBreakdown → Option String) (p : ℚ)
    (hne : ve.price ≠ 0) :
    (scoreProperty (some pd) (some ve) m gen p).map (fun b => b.value_score) =
      some (valueBand (p / ve.price)).1 := by
  simp [scoreProperty, hne, scoreBase]

/-- Claim C1, counterexample: the claim asserts that the ratio 0.89999
(considered 89999 against estimated 100000) scores 30, but the `elif`
evaluation order reaches `0.8 <= r <= 1.2` first, so the code awards 35. -/
theorem valueScore_boundary_cex :
    valueScore 89999 100000 = 35 ∧ valueScore 89999 100000 ≠ 30 := by
  have h : valueScore 89999 100000 = 35 := by
    unfold valueScore valueBand
    norm_num
  exact ⟨h, by rw [h]; omega⟩

/-- Claim C1, amended: for positive considered and estimated prices the
banding over `r = consideredPrice / estimatedPrice` is total and evaluated
in order: `0.9 ≤ r ≤ 1.1` (boundaries included) gives 40; otherwise
`0.8 ≤ r ≤ 1.2` gives 35 (so `r = 0.89999` gives 35); the `r < 0.9` band
awarding 30 is reached only for `r < 0.8`; and `r > 1.2` gives 20. -/
theorem valueScore_banding (consideredPrice estimatedValue : ℚ)
    (hest : 0 < estimatedValue) (hcons : 0 < consideredPrice) :
    ((0.9 ≤ consideredPrice / estimatedValue ∧ consideredPrice / estimatedValue ≤ 1.1) →
        valueScore consideredPrice estimatedValue = 40) ∧
    (((0.8 ≤ consideredPrice / estimatedValue ∧ consideredPrice / estimatedValue < 0.9) ∨
      (1.1 < consideredPrice / estimatedValue ∧ consideredPrice / estimatedValue ≤ 1.2)) →
        valueScore consideredPrice estimatedValue = 35) ∧
    (consideredPrice / estimatedValue < 0.8 →
        valueScore consideredPrice estimatedValue = 30) ∧
    (1.2 < consideredPrice / estimatedValue →
        valueScore consideredPrice estimatedValue = 20) := by
  unfold valueScore valueBand
  set r := consideredPrice / estimatedValue with hr
  split_ifs with h1 h2 h3
  · refine ⟨fun _ => rfl, ?_, ?_, ?_⟩ <;> intro h
    · rcases h with ⟨_, hb⟩ | ⟨hb, _⟩ <;> exfalso <;> linarith [h1.1, h1.2]
    · exfalso; linarith [h1.1]
    · exfalso; linarith [h1.2]
  · refine ⟨fun h => absurd h h1, fun _ => rfl, ?_, ?_⟩ <;> intro h
    · exfalso; linarith [h2.1]
    · exfalso; linarith [h2.2]
  · refine ⟨fun h => absurd h h1, ?_, fun _ => rfl, ?_⟩ <;> intro h
    · rcases h with ⟨ha, hb⟩ | ⟨ha, hb⟩
      · exact absurd ⟨ha, by linarith⟩ h2
      · exfalso; linarith
    · exfalso; linarith
  · push_neg at h3
    refine ⟨fun h => absurd h h1, ?_, ?_, fun _ => rfl⟩ <;> intro h
    · rcases h with ⟨ha, hb⟩ | ⟨ha, hb⟩
      · exfalso; linarith
      · exact absurd ⟨by linarith, hb⟩ h2
    · exfalso; linarith

/-- Claim C1, witness: concrete evaluations of every band, including both
boundary ratios 0.9 and 1.1 falling in the tighter band. -/
theorem valueScore_banding_witness :
    (0 < (100000:ℚ)) ∧
    valueScore 90000 100000 = 40 ∧ valueScore 110000 100000 = 40 ∧
    valueScore 89999 100000 = 35 ∧ valueScore 75000 100000 = 30 ∧
    valueScore 130000 100000 = 20 :=
  ⟨by norm_num,
   (valueScore_banding 90000 100000 (by norm_num) (by norm_num)).1 (by norm_num),
   (valueScore_banding 110000 100000 (by norm_num) (by norm_num)).1 (by norm_num),
   (valueScore_banding 89999 100000 (by norm_num) (by norm_num)).2.1 (Or.inl (by norm_num)),
   (valueScore_banding 75000 100000 (by norm_num) (by norm_num)).2.2.1 (by norm_num),
   (valueScore_banding 130000 100000 (by norm_num) (by norm_num)).2.2.2 (by norm_num)⟩

/-- Claim C2, counterexample: on a failed property fetch the returned
breakdown's factors list is EMPTY — the failure is only logged, no
explanatory factor is appended, contrary to the claim. -/
theorem notFound_factors_cex :
    (scoreProperty none none none (fun _ => none) 150000).map
      (fun b => b.factors) = some [] := rfl

/-- Claim C2, amended: when the property record cannot be fetched the scorer
returns (does not raise) the initial breakdown: all four scores 0,
confidence low, and an empty factors list (the failure is only logged). -/
theorem notFound_breakdown (valueEstimate : Option ValueEstimate)
    (marketData : Option MarketData) (gen : ScoreBreakdown → Option String)
    (consideredPrice : ℚ) :
    scoreProperty none valueEstimate marketData gen consideredPrice =
      some initialBreakdown ∧
    initialBreakdown.total_score = 0 ∧ initialBreakdown.value_score = 0 ∧
    initialBreakdown.location_score = 0 ∧ initialBreakdown.feature_score = 0 ∧
    initialBreakdown.confidence = "low" ∧ initialBreakdown.factors = [] :=
  ⟨rfl, rfl, rfl, rfl, rfl, rfl, rfl⟩

/-- Claim C3, counterexample: three division-by-zero crashes exist in the
core — the displayed GRM divides by a zero annual rent (guarded only by the
price), the value spread divides by a present-but-zero price (the `.get`
default 1 applies only when the key is absent), and the value-score pipeline
divides by a zero estimated price. -/
theorem division_crash_cex :
    incomeGRMMetric ⟨some 250000, none, none⟩ ⟨some 0⟩ = .crash ∧
    valueSpreadMetric ⟨some 0, some 90000, some 110000⟩ = .crash ∧
    scoreProperty (some {}) (some ⟨0, 0, 0, none⟩) none (fun _ => none) 150000 = none :=
  ⟨by simp [incomeGRMMetric, truthyQ], by simp [valueSpreadMetric], rfl⟩

/-- Claim C3, amended: the cap-rate computation never raises a
division-by-zero; the displayed GRM crashes exactly when the price is truthy
and the monthly rent defaults to zero; the value spread crashes exactly when
the price is present and zero; and the scorer pipeline crashes exactly when
a value estimate arrives with a zero estimated price. -/
theorem division_guard_characterization :
    (∀ v r, incomeCapRateMetric v r ≠ .crash) ∧
    (∀ v r, incomeGRMMetric v r = .crash ↔
      (truthyQ v.price = true ∧ r.rent.getD 0 = 0)) ∧
    (∀ v, valueSpreadMetric v = .crash ↔ v.price = some 0) ∧
    (∀ pd ve m gen p,
      scoreProperty (some pd) (some ve) m gen p = none ↔ ve.price = 0) := by
  refine ⟨?_, ?_, ?_, ?_⟩
  · intro v r
    unfold incomeCapRateMetric
    dsimp only
    split_ifs with h1 h2
    · simp [truthyQ, h2] at h1
    · simp
    · simp
  · intro v r
    unfold incomeGRMMetric
    dsimp only
    split_ifs with h1 h2
    · refine ⟨fun _ => ⟨h1, ?_⟩, fun _ => rfl⟩
      rcases mul_eq_zero.mp h2 with h | h
      · exact h
      · norm_num at h
    · constructor
      · intro h
        exact absurd h (by simp)
      · rintro ⟨-, hrent⟩
        exact absurd (by rw [hrent]; norm_num) h2
    · constructor
      · intro h
        exact absurd h (by simp)
      · rintro ⟨htr, -⟩
        exact absurd htr h1
  · intro v
    unfold valueSpreadMetric
    dsimp only
    cases hv : v.price with
    | none => simp [hv]
    | some x =>
      by_cases hx : x = 0 <;> simp [hv, hx]
  · intro pd ve m gen p
    simp only [scoreProperty]
    by_cases h : ve.price = 0 <;> simp [h]

/-- Claim C4, counterexample: a non-positive considered price is not
rejected — the scorer runs the full pipeline and returns a normally scored
breakdown (ratio below 0.8 banded at 30, confidence medium). -/
theorem no_input_validation_cex :
    (scoreProperty (some {}) (some ⟨100000, 90000, 110000, none⟩) none
      (fun _ => none) (-50000)).map (fun b => (b.value_score, b.confidence)) =
      some (30, "medium") := by
  simp [scoreProperty, scoreBase, valueBand, valueInsight, confidenceLevel,
    get_price_band, featureScore, emptyFeatures, locationScore]
  norm_num

/-- Claim C4, amended: the scorer performs no input validation of its own: a
non-positive considered price (with a positive estimate) is scored normally
with value score 30, and an empty address is turned into `None` inside the
data-source wrapper, which the scorer surfaces as the same zero-score
breakdown as a NotFound — no distinct validation error exists. -/
theorem no_input_validation :
    (∀ pd ve m gen p, p ≤ 0 → 0 < ve.price →
      (scoreProperty (some pd) (some ve) m gen p).map (fun b => b.value_score) =
        some 30) ∧
    (∀ fetched v m gen p,
      scoreProperty (getPropertyData "" fetched) v m gen p = some initialBreakdown) := by
  constructor
  · intro pd ve m gen p hp hest
    have hne : ve.price ≠ 0 := ne_of_gt hest
    have hrle : p / ve.price ≤ 0 := div_nonpos_iff.mpr (Or.inr ⟨hp, le_of_lt hest⟩)
    rw [scoreProperty_value_score pd ve m gen p hne]
    unfold valueBand
    split_ifs with h1 h2 h3
    · exfalso; linarith [h1.1]
    · exfalso; linarith [h2.1]
    · rfl
    · exfalso; push_neg at h3; linarith
  · intro fetched v m gen p
    rfl

/-- Claim C4, witness: the amended behavior at a concrete non-positive price
and at a concrete empty address. -/
theorem no_input_validation_witness :
    ((-50000 : ℚ) ≤ 0 ∧ (0:ℚ) < 100000) ∧
    (scoreProperty (some {}) (some ⟨100000, 90000, 110000, none⟩) none
      (fun _ => none) (-50000)).map (fun b => b.value_score) = some 30 ∧
    scoreProperty (getPropertyData "" (some {})) none none (fun _ => none) 150000 =
      some initialBreakdown :=
  ⟨by norm_num,
   no_input_validation.1 {} ⟨100000, 90000, 110000, none⟩ none (fun _ => none)
     (-50000) (by norm_num) (by norm_num),
   no_input_validation.2 (some {}) none none (fun _ => none) 150000⟩

/-- Claim C5: the confidence is high iff both the value estimate and the
market data were obtained, low iff neither, and medium in exactly the two
remaining cases — exhaustive over the four combinations. -/
theorem confidence_exhaustive (v : Option ValueEstimate) (m : Option MarketData) :
    (confidenceLevel v m = "high" ↔ v.isSome = true ∧ m.isSome = true) ∧
    (confidenceLevel v m = "low" ↔ v = none ∧ m = none) ∧
    (confidenceLevel v m = "medium" ↔
      ((v.isSome = true ∧ m = none) ∨ (v = none ∧ m.isSome = true))) := by
  cases v <;> cases m <;> simp [confidenceLevel]

/-- Claim C6: two scoring runs differing only in the narrative generator
produce identical numeric breakdowns (every field except `ai_analysis`), and
a run whose generator raises gets the fixed placeholder string. -/
theorem narrative_failure_isolated :
    (∀ propertyData v m gen1 gen2 p b1 b2,
      scoreProperty propertyData v m gen1 p = some b1 →
      scoreProperty propertyData v m gen2 p = some b2 →
      b1.total_score = b2.total_score ∧ b1.value_score = b2.value_score ∧
      b1.location_score = b2.location_score ∧ b1.feature_score = b2.feature_score ∧
      b1.confidence = b2.confidence ∧ b1.factors = b2.factors ∧
      b1.price_band = b2.price_band ∧ b1.market_context = b2.market_context ∧
      b1.validation_examples = b2.validation_examples ∧
      b1.value_analysis = b2.value_analysis) ∧
    (∀ pd v m p b,
      scoreProperty (some pd) v m (fun _ => none) p = some b →
      b.ai_analysis = some placeholderAnalysis) := by
  constructor
  · intro propertyData v m gen1 gen2 p b1 b2 h1 h2
    cases propertyData with
    | none =>
      simp only [scoreProperty, Option.some_inj] at h1 h2
      subst h1; subst h2
      exact ⟨rfl, rfl, rfl, rfl, rfl, rfl, rfl, rfl, rfl, rfl⟩
    | some pd =>
      simp only [scoreProperty] at h1 h2
      split at h1
      · exact absurd h1 (by simp)
      · rename_i hguard
        rw [if_neg hguard] at h2
        simp only [Option.some_inj] at h1 h2
        subst h1; subst h2
        exact ⟨rfl, rfl, rfl, rfl, rfl, rfl, rfl, rfl, rfl, rfl⟩
  · intro pd v m p b h
    simp only [scoreProperty] at h
    split at h
    · exact absurd h (by simp)
    · simp only [Option.some_inj] at h
      subst h
      rfl

/-- Claim C6, witness: a concrete two-run comparison — generator raising
versus generator succeeding — with identical numeric fields and the
placeholder installed on the failing run. -/
theorem narrative_failure_isolated_witness :
    (scoreProperty (some {}) none (some { saleData := none })
        (fun _ => none) 150000 = some narrativeFailB) ∧
    (scoreProperty (some {}) none (some { saleData := none })
        (fun _ => some "A fine property.") 150000 = some narrativeOkB) ∧
    (narrativeFailB.total_score = narrativeOkB.total_score ∧
     narrativeFailB.value_score = narrativeOkB.value_score ∧
     narrativeFailB.location_score = narrativeOkB.location_score ∧
     narrativeFailB.feature_score = narrativeOkB.feature_score ∧
     narrativeFailB.confidence = narrativeOkB.confidence ∧
     narrativeFailB.factors = narrativeOkB.factors ∧
     narrativeFailB.price_band = narrativeOkB.price_band ∧
     narrativeFailB.market_context = narrativeOkB.market_context ∧
     narrativeFailB.validation_examples = narrativeOkB.validation_examples ∧
     narrativeFailB.value_analysis = narrativeOkB.value_analysis) ∧
    narrativeFailB.ai_analysis = some placeholderAnalysis := by
  have h1 : scoreProperty (some {}) none (some { saleData := none })
      (fun _ => none) 150000 = some narrativeFailB := rfl
  have h2 : scoreProperty (some {}) none (some { saleData := none })
      (fun _ => some "A fine property.") 150000 = some narrativeOkB := rfl
  exact ⟨h1, h2, narrative_failure_isolated.1 _ _ _ _ _ _ _ _ h1 h2,
    narrative_failure_isolated.2 _ _ _ _ _ h1⟩

/-- Claim C7, counterexample: an active comparable (no `removedDate`) with
30 days on market is counted by the exchange-metrics `close_rate` (100%)
although the claimed formula — `removedDate` present AND `daysOnMarket`
below the window — yields 0%, so the two computation sites disagree. -/
theorem closeRate_divergence_cex :
    openComp30.removedDate = none ∧
    closeWithinWindowRateSpec [openComp30] 180 = some 0 ∧
    closeRate180Exchange [openComp30] = some 100 := by
  refine ⟨rfl, ?_, ?_⟩ <;>
    simp [closeWithinWindowRateSpec, closeRate180Exchange, openComp30] <;> norm_num

/-- Claim C7, amended: over a non-empty comparable list the displayed
180-day close rate equals the claimed formula (when every record carries a
`daysOnMarket` and no empty-string `removedDate`), while the exchange-data
`close_rate` counts `daysOnMarket` (defaulted to 180) below 180 regardless
of `removedDate`; both divide by the full comparable-set size. -/
theorem closeRate_sites (comps : List ComparableRecord) (hne : comps ≠ [])
    (hdom : ∀ c ∈ comps, c.daysOnMarket.isSome = true)
    (hrd : ∀ c ∈ comps, c.removedDate ≠ some "") :
    closeRate180Display comps = closeWithinWindowRateSpec comps 180 ∧
    closeRate180Exchange comps =
      some (((comps.countP fun c => decide (c.daysOnMarket.getD 180 < 180)) : ℚ) /
        (comps.length : ℚ) * 100) := by
  constructor
  · have hfilter : (comps.filter fun c =>
        truthyS c.removedDate && decide (c.daysOnMarket.getD 0 < 180)) =
        comps.filter fun c =>
          c.removedDate.isSome && c.daysOnMarket.any fun d => decide (d < (180:ℚ)) := by
      apply List.filter_congr
      intro c hc
      obtain ⟨d, hd⟩ := Option.isSome_iff_exists.mp (hdom c hc)
      have h2 : decide (c.daysOnMarket.getD 0 < (180:ℚ)) =
          c.daysOnMarket.any fun x => decide (x < (180:ℚ)) := by
        rw [hd]; rfl
      have h1 : truthyS c.removedDate = c.removedDate.isSome := by
        cases hr : c.removedDate with
        | none => rfl
        | some s =>
          have hs : s ≠ "" := by
            intro hs
            exact (hrd c hc) (by rw [hr, hs])
          simp [truthyS, hs]
      rw [h1, h2]
    unfold closeRate180Display closeWithinWindowRateSpec
    dsimp only
    rw [hfilter]
  · unfold closeRate180Exchange
    rw [List.countP_eq_length_filter, if_neg (by simpa using hne)]

/-- Claim C7, witness: the amended statement at a concrete two-comparable
list (one closed sale within the window, one active slow listing). -/
theorem closeRate_sites_witness :
    (([⟨none, none, none, none, none, none, some 30, some "2024-01-02", none⟩,
       ⟨none, none, none, none, none, none, some 200, none, none⟩] :
        List ComparableRecord) ≠ []) ∧
    closeRate180Display
      [⟨none, none, none, none, none, none, some 30, some "2024-01-02", none⟩,
       ⟨none, none, none, none, none, none, some 200, none, none⟩] =
    closeWithinWindowRateSpec
      [⟨none, none, none, none, none, none, some 30, some "2024-01-02", none⟩,
       ⟨none, none, none, none, none, none, some 200, none, none⟩] 180 := by
  constructor
  · simp
  · exact (closeRate_sites _ (by simp) (by decide) (by decide)).1

/-- Claim C8: for any comparable list whose records carry a square footage,
and any tolerance in [20,50], the size filter returns exactly the records
whose square footage lies in the closed tolerance interval (boundaries
included), and an empty result is an empty list, not an error. -/
theorem filterBySize_closed_interval (comps : List ComparableRecord)
    (sqft tol : ℚ) (htol1 : 20 ≤ tol) (htol2 : tol ≤ 50)
    (hsq : ∀ c ∈ comps, c.squareFootage.isSome = true) :
    ∃ res, filterBySize comps sqft tol = some res ∧
      ∀ c, c ∈ res ↔ (c ∈ comps ∧
        sqft * (1 - tol / 100) ≤ c.squareFootage.getD 0 ∧
        c.squareFootage.getD 0 ≤ sqft * (1 + tol / 100)) := by
  have hall : comps.all (fun c => c.squareFootage.isSome) = true := by
    rw [List.all_eq_true]
    exact hsq
  refine ⟨comps.filter (fun c =>
      decide (sqft * (1 - tol / 100) ≤ c.squareFootage.getD 0) &&
      decide (c.squareFootage.getD 0 ≤ sqft * (1 + tol / 100))), ?_, ?_⟩
  · unfold filterBySize
    dsimp only
    rw [if_pos hall]
  · intro c
    simp [List.mem_filter, and_assoc]

/-- Claim C8, witness: target 1000 sqft at 30% tolerance keeps the record at
exactly the 700 sqft lower boundary and drops the record at 1301 sqft. -/
theorem filterBySize_closed_interval_witness :
    ((20:ℚ) ≤ 30 ∧ (30:ℚ) ≤ 50) ∧
    (∃ res, filterBySize
        [{ squareFootage := some 700 }, { squareFootage := some 1301 }] 1000 30 = some res ∧
      ∀ c, c ∈ res ↔ (c ∈ ([{ squareFootage := some 700 },
          { squareFootage := some 1301 }] : List ComparableRecord) ∧
        (1000:ℚ) * (1 - 30 / 100) ≤ c.squareFootage.getD 0 ∧
        c.squareFootage.getD 0 ≤ (1000:ℚ) * (1 + 30 / 100))) :=
  ⟨by norm_num,
   filterBySize_closed_interval
     [{ squareFootage := some 700 }, { squareFootage := some 1301 }]
     1000 30 (by norm_num) (by norm_num) (by decide)⟩

/-- Claim C9: ranking by similarity returns a permutation of the input,
sorted non-increasing by correlation (absent correlation treated as 0), and
stably — records with equal correlation keep their original relative order
(their filtered subsequence is unchanged). -/
theorem rankBySimilarity_stable_desc (comps : List ComparableRecord) :
    (rankBySimilarity comps).Perm comps ∧
    (rankBySimilarity comps).Pairwise (fun a b => corrKey b ≤ corrKey a) ∧
    (∀ q : ℚ, (rankBySimilarity comps).filter (fun c => corrKey c == q) =
      comps.filter (fun c => corrKey c == q)) := by
  have htrans : ∀ (a b c : ComparableRecord),
      corrDescLE a b → corrDescLE b c → corrDescLE a c := by
    intro a b c hab hbc
    simp only [corrDescLE, decide_eq_true_eq] at *
    exact le_trans hbc hab
  have htotal : ∀ (a b : ComparableRecord), corrDescLE a b || corrDescLE b a := by
    intro a b
    simp only [corrDescLE, Bool.or_eq_true, decide_eq_true_eq]
    exact le_total (corrKey b) (corrKey a)
  refine ⟨List.mergeSort_perm comps corrDescLE, ?_, ?_⟩
  · exact (List.sorted_mergeSort htrans htotal comps).imp
      (fun h => by simpa [corrDescLE] using h)
  · intro q
    set p : ComparableRecord → Bool := fun c => corrKey c == q with hp
    have hsub : List.Sublist (comps.filter p) comps := List.filter_sublist comps
    have hpw : (comps.filter p).Pairwise fun a b => corrDescLE a b := by
      apply List.pairwise_of_forall_mem_list
      intro a ha b hb
      have ha2 := (List.mem_filter.mp ha).2
      have hb2 := (List.mem_filter.mp hb).2
      simp only [hp, beq_iff_eq] at ha2 hb2
      simp [corrDescLE, ha2, hb2]
    have h1 : List.Sublist (comps.filter p) (List.mergeSort comps corrDescLE) :=
      List.sublist_mergeSort htrans htotal hpw hsub
    have h2 : List.Sublist ((comps.filter p).filter p)
        ((List.mergeSort comps corrDescLE).filter p) := h1.filter p
    rw [List.filter_eq_self.mpr (fun a ha => (List.mem_filter.mp ha).2)] at h2
    have hperm : ((List.mergeSort comps corrDescLE).filter p).Perm (comps.filter p) :=
      (List.mergeSort_perm comps corrDescLE).filter p
    exact (h2.eq_of_length hperm.length_eq.symm).symm

/-- Claim C10: a truthy market response lacking the `saleData` section
leaves the location score at 0 and the market context empty, yet still
counts toward confidence, so with a value estimate also present the returned
breakdown is high-confidence with a zero location score. -/
theorem saleData_missing_confidence (pd : PropertyData) (ve : ValueEstimate)
    (md : MarketData) (gen : ScoreBreakdown → Option String) (p : ℚ)
    (hsale : md.saleData = none) (hprice : ve.price ≠ 0) :
    (scoreProperty (some pd) (some ve) (some md) gen p).map
      (fun b => (b.confidence, b.location_score, b.market_context)) =
      some ("high", 0, none) := by
  simp [scoreProperty, hprice, scoreBase, hsale, confidenceLevel]

/-- Claim C10, witness: the statement at a concrete property, estimate and
sale-data-free market response. -/
theorem saleData_missing_confidence_witness :
    (({ saleData := none } : MarketData).saleData = none ∧ (100000:ℚ) ≠ 0) ∧
    (scoreProperty (some {}) (some ⟨100000, 90000, 110000, none⟩)
        (some { saleData := none }) (fun _ => none) 95000).map
      (fun b => (b.confidence, b.location_score, b.market_context)) =
      some ("high", 0, none) :=
  ⟨⟨rfl, by norm_num⟩,
   saleData_missing_confidence {} ⟨100000, 90000, 110000, none⟩ { saleData := none }
     (fun _ => none) 95000 rfl (by norm_num)⟩

end PropertyAnalyzer
